import Mathlib

/-!
Shallow embedding of the TripNote trip/budget/expense domain logic
(`trips/models.py`, `trips/serializers.py`, `trips/views.py`).

Conventions of the embedding:
* Dates (`DateField`) are modelled as integers counting days, so that
  `(d2 - d1).days` of Python becomes plain integer subtraction.
* Money (`DecimalField` with `decimal_places=0`) is modelled as `ℤ`;
  percentages, which involve division, are modelled as `ℚ`.  Decimal and
  float arithmetic of the source is embedded as exact rational arithmetic.
* Python `round(x, 1)` (banker's rounding, half to even) is modelled by
  `round1` below.
* Django query sets attached to a trip (`trip.budgets`, `trip.expenses`,
  `trip.destinations`, `trip.day_plans`, `trip.logs`) are modelled as list
  fields of the `Trip` structure; `aggregate(Sum(..))` returns `none` on an
  empty query set, and the Python idiom `... or Decimal("0")` is modelled by
  `pyOrZero` (which maps both `none` and a falsy `0` to `0`).
* DRF serializer validation is modelled with `Except (String × String) _`,
  the error carrying the attributed field name and the message.
-/

/-- `BudgetCategory` text choices of `trips/models.py`, in declaration order. -/
inductive BudgetCategory where
  | transport
  | accommodation
  | food
  | attraction
  | shopping
  | other
deriving DecidableEq

/-- The fixed category enum as iterated by `BudgetCategory.choices`. -/
def BudgetCategory.choices : List BudgetCategory :=
  [.transport, .accommodation, .food, .attraction, .shopping, .other]

/-- `Trip.Status` text choices. -/
inductive TripStatus where
  | planning
  | ongoing
  | completed
deriving DecidableEq

/-- `TripLog.VisitStatus` text choices. -/
inductive VisitStatus where
  | planned
  | unplanned
  | skipped
deriving DecidableEq

/-- Django `aggregate(total=Sum("amount"))["total"]`: `none` on an empty
query set, otherwise the sum of the rows. -/
def aggSum (l : List ℤ) : Option ℤ :=
  if l.isEmpty then none else some l.sum

/-- Python `x or Decimal("0")`: both `None` and a falsy `0` give `0`. -/
def pyOrZero (o : Option ℤ) : ℤ :=
  match o with
  | none => 0
  | some v => if v = 0 then 0 else v

/-- Floor of a rational as an integer (denominators are positive, so
floor division of the numerator by the denominator). -/
def qfloor (x : ℚ) : ℤ := Int.fdiv x.num (x.den : ℤ)

/-- Python `round(x, 1)`: round to one decimal place, ties to even
(the rounding used by both `float.__round__` and `Decimal.__round__`). -/
def round1 (x : ℚ) : ℚ :=
  let y := x * 10
  let f := qfloor y
  let r := y - (f : ℚ)
  let n : ℤ :=
    if r < 1/2 then f
    else if 1/2 < r then f + 1
    else if f % 2 = 0 then f else f + 1
  (n : ℚ) / 10

/-- `Destination` model (the fields relevant to the verified logic). -/
structure Destination where
  name : String
  address : String
  day : Nat
  order : Nat
  estimated_cost : ℤ
  memo : String
deriving DecidableEq

/-- `DayPlan` model. -/
structure DayPlan where
  day_number : Nat
  date : ℤ
  memo : String
deriving DecidableEq

/-- `Budget` model. -/
structure Budget where
  category : BudgetCategory
  amount : ℤ
  memo : String
deriving DecidableEq

/-- `Expense` model. -/
structure Expense where
  category : BudgetCategory
  amount : ℤ
  description : String
  expense_date : Option ℤ
  day_number : Option Nat
deriving DecidableEq

/-- `TripLog` model. -/
structure TripLog where
  destination : Option Destination
  place_name : String
  address : String
  visit_date : Option ℤ
  day_number : Option Nat
  rating : Option Nat
  visit_status : VisitStatus
deriving DecidableEq

/-- `Trip` model together with its owned collections (the related managers
`destinations`, `day_plans`, `budgets`, `expenses`, `logs`). -/
structure Trip where
  title : String
  description : String
  start_date : ℤ
  end_date : ℤ
  thumbnail : Option String
  is_public : Bool
  status : TripStatus
  destinations : List Destination
  day_plans : List DayPlan
  budgets : List Budget
  expenses : List Expense
  logs : List TripLog
deriving DecidableEq

/-- `Trip.duration_days`: `(end_date - start_date).days + 1`. -/
def Trip.duration_days (t : Trip) : ℤ :=
  t.end_date - t.start_date + 1

/-- `Trip.total_budget`: `budgets.aggregate(Sum("amount"))["total"] or 0`. -/
def Trip.total_budget (t : Trip) : ℤ :=
  pyOrZero (aggSum (t.budgets.map (fun b => b.amount)))

/-- `Trip.total_expense`: `expenses.aggregate(Sum("amount"))["total"] or 0`. -/
def Trip.total_expense (t : Trip) : ℤ :=
  pyOrZero (aggSum (t.expenses.map (fun e => e.amount)))

/-- `Trip.budget_remaining`: `total_budget - total_expense`. -/
def Trip.budget_remaining (t : Trip) : ℤ :=
  t.total_budget - t.total_expense

/-- `Trip.budget_usage_percent`: `0` if `total_budget == 0`, otherwise
`round(total_expense / total_budget * 100, 1)`. -/
def Trip.budget_usage_percent (t : Trip) : ℚ :=
  if t.total_budget = 0 then 0
  else round1 ((t.total_expense : ℚ) / (t.total_budget : ℚ) * 100)

/-- `Trip.total_estimated_cost`: sum of `Destination.estimated_cost`. -/
def Trip.total_estimated_cost (t : Trip) : ℤ :=
  pyOrZero (aggSum (t.destinations.map (fun d => d.estimated_cost)))

/-- `Budget.spent_amount`: sum of the trip expenses in this budget's
category (`or 0` on an empty query set). -/
def Budget.spent_amount (b : Budget) (t : Trip) : ℤ :=
  pyOrZero (aggSum ((t.expenses.filter (fun e => e.category == b.category)).map
    (fun e => e.amount)))

/-- `Budget.remaining_amount`: `amount - spent_amount`. -/
def Budget.remaining_amount (b : Budget) (t : Trip) : ℤ :=
  b.amount - b.spent_amount t

/-- `Budget.usage_percent`: `0` if `amount == 0`, otherwise
`round(spent_amount / amount * 100, 1)`. -/
def Budget.usage_percent (b : Budget) (t : Trip) : ℚ :=
  if b.amount = 0 then 0
  else round1 ((b.spent_amount t : ℚ) / (b.amount : ℚ) * 100)

/-- `Expense.save`: if `day_number` is unset and `expense_date` is present,
derive `day_number = (expense_date - trip.start_date).days + 1` when the
delta is non-negative, else leave it unset. -/
def Expense.save (e : Expense) (tripStart : ℤ) : Expense :=
  match e.day_number, e.expense_date with
  | none, some d =>
    let delta := d - tripStart
    if delta ≥ 0 then { e with day_number := some (delta.toNat + 1) } else e
  | _, _ => e

/-- `TripLog.save`: the same `day_number` derivation from `visit_date`,
followed by copying place data from the linked destination when
`place_name` is blank. -/
def TripLog.save (l : TripLog) (tripStart : ℤ) : TripLog :=
  let l1 :=
    match l.day_number, l.visit_date with
    | none, some d =>
      let delta := d - tripStart
      if delta ≥ 0 then { l with day_number := some (delta.toNat + 1) } else l
    | _, _ => l
  match l1.destination with
  | some dest =>
    if l1.place_name = "" then
      { l1 with place_name := dest.name, address := dest.address }
    else l1
  | none => l1

/-- Fuel-indexed unfolding of the `while current_date <= trip.end_date`
loop shared by `_create_day_plans` and `_update_day_plans`; the fuel is the
exact number of remaining loop iterations. -/
def dayPlanLoopAux (fuel : Nat) (current endDate : ℤ) (d : Nat) : List DayPlan :=
  match fuel with
  | 0 => []
  | f + 1 =>
    if current ≤ endDate then
      { day_number := d, date := current, memo := "" } ::
        dayPlanLoopAux f (current + 1) endDate (d + 1)
    else []

/-- `TripCreateSerializer._create_day_plans`: one `DayPlan` per calendar day
from `start_date` to `end_date`, numbered from 1. -/
def TripCreateSerializer.create_day_plans (startDate endDate : ℤ) : List DayPlan :=
  dayPlanLoopAux (endDate + 1 - startDate).toNat startDate endDate 1

/-- `TripUpdateSerializer._update_day_plans`: delete all existing `DayPlan`
rows, then recreate them with the same loop as `_create_day_plans`. -/
def TripUpdateSerializer.update_day_plans (startDate endDate : ℤ) : List DayPlan :=
  dayPlanLoopAux (endDate + 1 - startDate).toNat startDate endDate 1

/-- Payload of the nested `DestinationCreateSerializer` (`day` is optional,
the model default being 1). -/
structure DestinationPayload where
  name : String
  address : String
  day : Option Nat
  order : Nat
  estimated_cost : ℤ
  memo : String
deriving DecidableEq

/-- Payload of the nested `BudgetCreateSerializer`. -/
structure BudgetPayload where
  category : BudgetCategory
  amount : ℤ
  memo : String
deriving DecidableEq

/-- Payload of `TripCreateSerializer`. -/
structure TripCreatePayload where
  title : String
  description : String
  start_date : ℤ
  end_date : ℤ
  thumbnail : Option String
  is_public : Bool
  destinations : List DestinationPayload
  budgets : List BudgetPayload
deriving DecidableEq

/-- Payload of `TripUpdateSerializer` (every field optional, as in a
partial update; an absent field keeps the instance value). -/
structure TripUpdatePayload where
  title : Option String
  description : Option String
  start_date : Option ℤ
  end_date : Option ℤ
  thumbnail : Option String
  status : Option TripStatus
  is_public : Option Bool
deriving DecidableEq

/-- Payload of `ExpenseCreateSerializer`. -/
structure ExpensePayload where
  category : BudgetCategory
  amount : ℤ
  description : String
  expense_date : ℤ
deriving DecidableEq

/-- `DestinationCreateSerializer.validate_day`: reject a day below 1. -/
def DestinationCreateSerializer.validate_day (value : Nat) :
    Except (String × String) Nat :=
  if value < 1 then .error ("day", "일차는 1 이상이어야 합니다.") else .ok value

/-- Whether a nested destination payload passes `validate_day` (an absent
`day` is simply not validated). -/
def DestinationCreateSerializer.dayValid (day : Option Nat) : Bool :=
  match day with
  | some d => decide (1 ≤ d)
  | none => true

/-- Materialize a nested destination payload as a stored row (`day`
defaults to 1 as in the model). -/
def DestinationPayload.toRow (p : DestinationPayload) : Destination :=
  { name := p.name, address := p.address, day := p.day.getD 1,
    order := p.order, estimated_cost := p.estimated_cost, memo := p.memo }

/-- `TripCreateSerializer.validate`: reject `end_date < start_date`, then
reject a duration `(end_date - start_date).days + 1` above 30. -/
def TripCreateSerializer.validate (start_date end_date : ℤ) :
    Except (String × String) Unit :=
  if end_date < start_date then
    .error ("end_date", "종료일은 시작일 이후여야 합니다.")
  else if end_date - start_date + 1 > 30 then
    .error ("end_date", "여행 기간은 최대 30일까지 설정할 수 있습니다.")
  else .ok ()

/-- `TripCreateSerializer.validate_title`: reject a title shorter than 2. -/
def TripCreateSerializer.validate_title (value : String) :
    Except (String × String) String :=
  if value.length < 2 then .error ("title", "제목은 2자 이상이어야 합니다.")
  else .ok value

/-- `TripCreateSerializer` end to end: `is_valid` (title validator, nested
destination and budget validators, then object-level `validate`) followed
by `create`, which stores the trip, its inline destinations and budgets,
and auto-generates the day plans. Note that the nested destinations are
only checked by `validate_day` (day at least 1) on this path. -/
def TripCreateSerializer.create (p : TripCreatePayload) :
    Except (String × String) Trip :=
  if p.title.length < 2 then .error ("title", "제목은 2자 이상이어야 합니다.")
  else if !(p.destinations.all fun d => DestinationCreateSerializer.dayValid d.day) then
    .error ("day", "일차는 1 이상이어야 합니다.")
  else if !(p.budgets.all fun b => decide (0 ≤ b.amount)) then
    .error ("amount", "예산은 0 이상이어야 합니다.")
  else
    match TripCreateSerializer.validate p.start_date p.end_date with
    | .error err => .error err
    | .ok _ =>
      .ok { title := p.title, description := p.description,
            start_date := p.start_date, end_date := p.end_date,
            thumbnail := p.thumbnail, is_public := p.is_public,
            status := TripStatus.planning,
            destinations := p.destinations.map DestinationPayload.toRow,
            day_plans := TripCreateSerializer.create_day_plans p.start_date p.end_date,
            budgets := p.budgets.map (fun b =>
              { category := b.category, amount := b.amount, memo := b.memo }),
            expenses := [], logs := [] }

/-- `TripUpdateSerializer.validate`: the effective dates are the payload
values falling back to the instance values; reject `end < start`. There is
no 30-day check on this path. -/
def TripUpdateSerializer.validate (t : Trip) (p : TripUpdatePayload) :
    Except (String × String) Unit :=
  let start_date := p.start_date.getD t.start_date
  let end_date := p.end_date.getD t.end_date
  if end_date < start_date then
    .error ("end_date", "종료일은 시작일 이후여야 합니다.")
  else .ok ()

/-- Field assignment performed by `super().update(instance, validated_data)`:
every field present in the payload overwrites the instance field. -/
def TripUpdateSerializer.applyFields (t : Trip) (p : TripUpdatePayload) : Trip :=
  { t with
    title := p.title.getD t.title,
    description := p.description.getD t.description,
    start_date := p.start_date.getD t.start_date,
    end_date := p.end_date.getD t.end_date,
    thumbnail := match p.thumbnail with
      | some v => some v
      | none => t.thumbnail,
    status := p.status.getD t.status,
    is_public := p.is_public.getD t.is_public }

/-- `TripUpdateSerializer.update`: apply the fields, then regenerate the
day plans (delete all, recreate) exactly when `start_date` or `end_date`
changed. -/
def TripUpdateSerializer.update (t : Trip) (p : TripUpdatePayload) : Trip :=
  let inst := TripUpdateSerializer.applyFields t p
  if t.start_date ≠ inst.start_date ∨ t.end_date ≠ inst.end_date then
    { inst with day_plans :=
        TripUpdateSerializer.update_day_plans inst.start_date inst.end_date }
  else inst

/-- `TripUpdateSerializer` end to end: `is_valid` then `save`. -/
def TripUpdateSerializer.save (t : Trip) (p : TripUpdatePayload) :
    Except (String × String) Trip :=
  match TripUpdateSerializer.validate t p with
  | .error err => .error err
  | .ok _ => .ok (TripUpdateSerializer.update t p)

/-- `ExpenseCreateSerializer.validate_amount`: reject a non-positive amount. -/
def ExpenseCreateSerializer.validate_amount (value : ℤ) :
    Except (String × String) ℤ :=
  if value ≤ 0 then .error ("amount", "금액은 0보다 커야 합니다.") else .ok value

/-- `ExpenseCreateSerializer.validate`: with the trip in the serializer
context, reject an `expense_date` outside `[start_date, end_date]`, the
error attributed to the `expense_date` field. -/
def ExpenseCreateSerializer.validate (t : Trip) (expense_date : ℤ) :
    Except (String × String) Unit :=
  if expense_date < t.start_date ∨ expense_date > t.end_date then
    .error ("expense_date", "지출 날짜는 여행 기간 내여야 합니다.")
  else .ok ()

/-- `TripViewSet.add_destination`: run `DestinationCreateSerializer`
validation, then reject a day above `trip.duration_days` (an absent day
defaults to 1), else store the destination. -/
def TripViewSet.add_destination (t : Trip) (p : DestinationPayload) :
    Except (String × String) Destination :=
  match p.day with
  | some dv =>
    if dv < 1 then .error ("day", "일차는 1 이상이어야 합니다.")
    else if (dv : ℤ) > t.duration_days then
      .error ("message", "일차는 여행 기간 이내여야 합니다.")
    else .ok (DestinationPayload.toRow p)
  | none =>
    if ((1 : ℤ)) > t.duration_days then
      .error ("message", "일차는 여행 기간 이내여야 합니다.")
    else .ok (DestinationPayload.toRow p)

/-- `TripViewSet.add_expense`: `ExpenseCreateSerializer` with the trip in
context (field validator first, then object-level date validation), then
`serializer.save(trip=trip)`, which creates the row through `Expense.save`. -/
def TripViewSet.add_expense (t : Trip) (p : ExpensePayload) :
    Except (String × String) Trip :=
  match ExpenseCreateSerializer.validate_amount p.amount with
  | .error err => .error err
  | .ok _ =>
    match ExpenseCreateSerializer.validate t p.expense_date with
    | .error err => .error err
    | .ok _ =>
      let e : Expense :=
        { category := p.category, amount := p.amount,
          description := p.description,
          expense_date := some p.expense_date, day_number := none }
      .ok { t with expenses := t.expenses ++ [Expense.save e t.start_date] }

/-- One row of the budget comparison built by `TripViewSet.comparison`. -/
structure BudgetComparisonEntry where
  category : BudgetCategory
  budget : ℤ
  actual : ℤ
  difference : ℤ
  usage_percent : ℚ
deriving DecidableEq

/-- One row of the schedule comparison built by `TripViewSet.comparison`.
The Python `set` values are modelled as finite sets of name strings. -/
structure ScheduleComparisonEntry where
  day_number : Nat
  date : ℤ
  planned_count : Nat
  actual_count : Nat
  planned_places : Finset String
  actual_places : Finset String
  visited_as_planned : Finset String
  skipped : Finset String
  unplanned_visits : Finset String
deriving DecidableEq

/-- Budget half of `TripViewSet.comparison`: one entry per category of
`BudgetCategory.choices`; `budget` is the first matching Budget row's
amount (0 if none), `actual` the aggregate of the matching expenses
(`or 0`), `difference` their difference, and `usage_percent` the rounded
ratio guarded by `budget_amount > 0`. -/
def TripViewSet.comparisonBudget (t : Trip) : List BudgetComparisonEntry :=
  BudgetCategory.choices.map (fun category =>
    let budget := (t.budgets.filter (fun b => b.category == category)).head?
    let budget_amount : ℤ :=
      match budget with
      | some b => b.amount
      | none => 0
    let expense_total : ℤ :=
      pyOrZero (aggSum ((t.expenses.filter (fun e => e.category == category)).map
        (fun e => e.amount)))
    { category := category,
      budget := budget_amount,
      actual := expense_total,
      difference := budget_amount - expense_total,
      usage_percent :=
        if budget_amount > 0 then
          round1 ((expense_total : ℚ) / (budget_amount : ℚ) * 100)
        else 0 })

/-- Schedule half of `TripViewSet.comparison`: for every day plan, the set
of planned destination names for that day number, the set of logged place
names for that day number with `visit_status` in planned or unplanned, and
their intersection and differences. -/
def TripViewSet.comparisonSchedule (t : Trip) : List ScheduleComparisonEntry :=
  t.day_plans.map (fun day_plan =>
    let planned : Finset String :=
      ((t.destinations.filter (fun d => d.day == day_plan.day_number)).map
        (fun d => d.name)).toFinset
    let actual_visited : Finset String :=
      ((t.logs.filter (fun l =>
          l.day_number == some day_plan.day_number &&
            (l.visit_status == VisitStatus.planned ||
              l.visit_status == VisitStatus.unplanned))).map
        (fun l => l.place_name)).toFinset
    { day_number := day_plan.day_number,
      date := day_plan.date,
      planned_count := planned.card,
      actual_count := actual_visited.card,
      planned_places := planned,
      actual_places := actual_visited,
      visited_as_planned := planned ∩ actual_visited,
      skipped := planned \ actual_visited,
      unplanned_visits := actual_visited \ planned })

/-- Example: an owned trip with no budgets, expenses, destinations or logs. -/
def exTripEmpty : Trip :=
  { title := "trip", description := "", start_date := 0, end_date := 0,
    thumbnail := none, is_public := false, status := .planning,
    destinations := [], day_plans := [], budgets := [], expenses := [],
    logs := [] }

/-- Example: the transport row of the budget comparison over `exTripEmpty`. -/
def exTransportEntry : BudgetComparisonEntry :=
  { category := .transport, budget := 0, actual := 0, difference := 0,
    usage_percent := 0 }

/-- Example destinations and a visit log matching the spec scenario. -/
def exBeach : Destination :=
  { name := "Beach", address := "", day := 1, order := 0,
    estimated_cost := 0, memo := "" }

/-- Second example destination, planned for day 2 and never visited. -/
def exMarket : Destination :=
  { name := "Market", address := "", day := 2, order := 0,
    estimated_cost := 0, memo := "" }

/-- Example log: Beach visited as planned on day 1. -/
def exBeachLog : TripLog :=
  { destination := none, place_name := "Beach", address := "",
    visit_date := some 0, day_number := some 1, rating := none,
    visit_status := .planned }

/-- Example two-day trip with the Beach/Market plan and one log. -/
def exTrip2day : Trip :=
  { title := "trip", description := "", start_date := 0, end_date := 1,
    thumbnail := none, is_public := false, status := .planning,
    destinations := [exBeach, exMarket],
    day_plans := [⟨1, 0, ""⟩, ⟨2, 1, ""⟩],
    budgets := [], expenses := [], logs := [exBeachLog] }

/-- Example: the day-1 row of the schedule comparison over `exTrip2day`. -/
def exSchedEntry1 : ScheduleComparisonEntry :=
  { day_number := 1, date := 0, planned_count := 1, actual_count := 1,
    planned_places := {"Beach"}, actual_places := {"Beach"},
    visited_as_planned := {"Beach"}, skipped := ∅, unplanned_visits := ∅ }

/-- Example creation payload for a 3-day trip. -/
def exCreatePayload : TripCreatePayload :=
  { title := "jeju", description := "", start_date := 0, end_date := 2,
    thumbnail := none, is_public := false, destinations := [], budgets := [] }

/-- The trip `exCreatePayload` creates (day plans numbered 1..3). -/
def exCreatedTrip : Trip :=
  { title := "jeju", description := "", start_date := 0, end_date := 2,
    thumbnail := none, is_public := false, status := .planning,
    destinations := [],
    day_plans := [⟨1, 0, ""⟩, ⟨2, 1, ""⟩, ⟨3, 2, ""⟩],
    budgets := [], expenses := [], logs := [] }

/-- Example update payload extending the trip to 5 days. -/
def exExtendPayload : TripUpdatePayload :=
  { title := none, description := none, start_date := none,
    end_date := some 4, thumbnail := none, status := none, is_public := none }

/-- Example expense with no day number, dated two days after trip start. -/
def exExpenseNoDay : Expense :=
  { category := .food, amount := 10000, description := "lunch",
    expense_date := some 2, day_number := none }

/-- Example log with no day number, dated two days after trip start. -/
def exLogNoDay : TripLog :=
  { destination := none, place_name := "Beach", address := "",
    visit_date := some 2, day_number := none, rating := none,
    visit_status := .planned }

/-- Example stored one-day trip (span 1 day). -/
def exTrip1day : Trip :=
  { title := "solo", description := "", start_date := 0, end_date := 0,
    thumbnail := none, is_public := false, status := .planning,
    destinations := [], day_plans := [⟨1, 0, ""⟩], budgets := [],
    expenses := [], logs := [] }

/-- Example update stretching `exTrip1day` to a 31-day span. -/
def exExtend31 : TripUpdatePayload :=
  { title := none, description := none, start_date := none,
    end_date := some 30, thumbnail := none, status := none,
    is_public := none }

/-- Example creation payload with a 41-day span. -/
def exLongPayload : TripCreatePayload :=
  { title := "long", description := "", start_date := 0, end_date := 40,
    thumbnail := none, is_public := false, destinations := [], budgets := [] }

/-- Example update with end date before start date. -/
def exBackwardsUpdate : TripUpdatePayload :=
  { title := none, description := none, start_date := some 5,
    end_date := some 3, thumbnail := none, status := none,
    is_public := none }

/-- Example inline destination payload asking for day 5. -/
def exBeachDay5Payload : DestinationPayload :=
  { name := "Beach", address := "", day := some 5, order := 0,
    estimated_cost := 0, memo := "" }

/-- The stored row for `exBeachDay5Payload`. -/
def exBeachDay5Row : Destination :=
  { name := "Beach", address := "", day := 5, order := 0,
    estimated_cost := 0, memo := "" }

/-- Example creation payload: a one-day trip with an inline destination
scheduled for day 5. -/
def exInlineDayPayload : TripCreatePayload :=
  { title := "jeju", description := "", start_date := 0, end_date := 0,
    thumbnail := none, is_public := false,
    destinations := [exBeachDay5Payload], budgets := [] }

/-- The trip `exInlineDayPayload` creates: the stored destination keeps
day 5 although the trip lasts a single day. -/
def exInlineDayTrip : Trip :=
  { title := "jeju", description := "", start_date := 0, end_date := 0,
    thumbnail := none, is_public := false, status := .planning,
    destinations := [exBeachDay5Row],
    day_plans := [⟨1, 0, ""⟩], budgets := [], expenses := [], logs := [] }

/-- Example destination payload for day 2 of a 3-day trip. -/
def exCafePayload : DestinationPayload :=
  { name := "Cafe", address := "", day := some 2, order := 0,
    estimated_cost := 0, memo := "" }

/-- The destination the add-destination endpoint stores for
`exCafePayload`. -/
def exCafeRow : Destination :=
  { name := "Cafe", address := "", day := 2, order := 0,
    estimated_cost := 0, memo := "" }

/-- Example expense payload with amount 0. -/
def exZeroExpense : ExpensePayload :=
  { category := .food, amount := 0, description := "free", expense_date := 0 }

/-- Example expense payload dated after the one-day trip ends. -/
def exLateExpense : ExpensePayload :=
  { category := .food, amount := 5000, description := "late",
    expense_date := 3 }

/-- Example title-only update payload. -/
def exTitleOnly : TripUpdatePayload :=
  { title := some "renamed", description := none, start_date := none,
    end_date := none, thumbnail := none, status := none, is_public := none }

/-- Example food budget of 100000. -/
def exFoodBudget : Budget := { category := .food, amount := 100000, memo := "" }

/-- Example food expense of 30000. -/
def exFoodExpense1 : Expense :=
  { category := .food, amount := 30000, description := "lunch",
    expense_date := some 0, day_number := some 1 }

/-- Example food expense of 20000. -/
def exFoodExpense2 : Expense :=
  { category := .food, amount := 20000, description := "dinner",
    expense_date := some 0, day_number := some 1 }

/-- Example trip with the food budget and two food expenses. -/
def exFoodTrip : Trip :=
  { title := "food", description := "", start_date := 0, end_date := 0,
    thumbnail := none, is_public := false, status := .planning,
    destinations := [], day_plans := [⟨1, 0, ""⟩],
    budgets := [exFoodBudget],
    expenses := [exFoodExpense1, exFoodExpense2], logs := [] }

/-- Key evaluation lemma: the Django aggregate-then-default idiom is the
plain list sum. -/
theorem pyOrZero_aggSum (l : List ℤ) : pyOrZero (aggSum l) = l.sum := by
  cases l with
  | nil => rfl
  | cons a as =>
    show pyOrZero (some (a :: as).sum) = (a :: as).sum
    simp only [pyOrZero]
    split
    · next h => exact h.symm
    · rfl

/-- C1: for every Trip, `total_budget` is the sum of the amounts of the
trip's Budget rows (`List.sum` of the empty list is `0`), `total_expense`
is the sum of the amounts of its Expense rows, and `budget_remaining` is
their difference. -/
theorem trip_totals_are_sums (t : Trip) :
    t.total_budget = (t.budgets.map (fun b => b.amount)).sum ∧
    t.total_expense = (t.expenses.map (fun e => e.amount)).sum ∧
    t.budget_remaining =
      (t.budgets.map (fun b => b.amount)).sum -
        (t.expenses.map (fun e => e.amount)).sum := by
  refine ⟨pyOrZero_aggSum _, pyOrZero_aggSum _, ?_⟩
  show t.total_budget - t.total_expense = _
  rw [Trip.total_budget, Trip.total_expense, pyOrZero_aggSum, pyOrZero_aggSum]

/-- C2: `budget_usage_percent` is `round(total_expense / total_budget * 100, 1)`
when the budget sum is nonzero and `0` when the budget sum is `0` (the guard
means the division is never taken with a zero divisor); analogously,
`Budget.usage_percent` is `round(spent_amount / amount * 100, 1)` when
`amount` is nonzero and `0` when `amount = 0`, where `spent_amount` is the
sum of the trip's expense amounts in the budget's category. -/
theorem usage_percent_guarded (t : Trip) (b : Budget) :
    (t.budget_usage_percent =
      if (t.budgets.map (fun x => x.amount)).sum = 0 then 0
      else round1 ((((t.expenses.map (fun x => x.amount)).sum : ℤ) : ℚ) /
        (((t.budgets.map (fun x => x.amount)).sum : ℤ) : ℚ) * 100)) ∧
    (b.spent_amount t =
      ((t.expenses.filter (fun e => e.category == b.category)).map
        (fun e => e.amount)).sum) ∧
    (b.usage_percent t =
      if b.amount = 0 then 0
      else round1 (((((t.expenses.filter (fun e => e.category == b.category)).map
        (fun e => e.amount)).sum : ℤ) : ℚ) / (b.amount : ℚ) * 100)) := by
  have hb := pyOrZero_aggSum (t.budgets.map (fun x => x.amount))
  have he := pyOrZero_aggSum (t.expenses.map (fun x => x.amount))
  have hs := pyOrZero_aggSum
    ((t.expenses.filter (fun e => e.category == b.category)).map (fun e => e.amount))
  refine ⟨?_, hs, ?_⟩
  · rw [Trip.budget_usage_percent, Trip.total_budget, Trip.total_expense, hb, he]
  · rw [Budget.usage_percent, Budget.spent_amount, hs]

/-- Closed form of the day-plan generation loop: with fuel equal to the
number of days in range, it emits one plan per day, numbered consecutively. -/
theorem dayPlanLoopAux_eq (fuel : Nat) : ∀ (current endDate : ℤ) (d : Nat),
    fuel = (endDate + 1 - current).toNat →
    dayPlanLoopAux fuel current endDate d =
      (List.range fuel).map
        (fun i => { day_number := d + i, date := current + (i : ℤ), memo := "" }) := by
  induction fuel with
  | zero => intro current endDate d _; rfl
  | succ f ih =>
    intro current endDate d h
    have hle : current ≤ endDate := by omega
    rw [dayPlanLoopAux, if_pos hle, ih (current + 1) endDate (d + 1) (by omega),
      List.range_succ_eq_map]
    simp only [List.map_cons, List.map_map]
    rw [List.cons_eq_cons]
    refine ⟨by simp, ?_⟩
    apply List.map_congr_left
    intro i _
    simp only [Function.comp, DayPlan.mk.injEq]
    refine ⟨by omega, by push_cast; ring, trivial⟩

/-- The generated day-plan list carries day numbers `1..N` for
`N = (endDate - startDate + 1).toNat`, and each plan dated
`startDate + (day_number - 1)`. -/
theorem create_day_plans_spec (startDate endDate : ℤ) :
    (TripCreateSerializer.create_day_plans startDate endDate).map
        (fun dp => dp.day_number) =
      (List.range (endDate - startDate + 1).toNat).map (fun i => i + 1) ∧
    ∀ dp ∈ TripCreateSerializer.create_day_plans startDate endDate,
      dp.date = startDate + dp.day_number - 1 := by
  have hN : (endDate + 1 - startDate).toNat = (endDate - startDate + 1).toNat := by
    omega
  have h := dayPlanLoopAux_eq (endDate + 1 - startDate).toNat startDate endDate 1 rfl
  constructor
  · rw [TripCreateSerializer.create_day_plans, h, List.map_map, hN]
    apply List.map_congr_left
    intro i _
    simp only [Function.comp]
    omega
  · intro dp hdp
    rw [TripCreateSerializer.create_day_plans, h] at hdp
    obtain ⟨i, _, rfl⟩ := List.mem_map.mp hdp
    simp only
    push_cast
    ring

/-- The update-path regeneration produces the same list as the create path
(the two loops are textually identical in the source). -/
theorem update_day_plans_eq_create (startDate endDate : ℤ) :
    TripUpdateSerializer.update_day_plans startDate endDate =
      TripCreateSerializer.create_day_plans startDate endDate := rfl

/-- C3: the budget comparison emits exactly one entry per category of the
fixed six-element enum, in enum order; in each entry `actual` is the sum of
the matching expense amounts, `difference` is `budget - actual`,
`usage_percent` is 0 whenever `budget` is 0, `budget` is 0 when no Budget
row of that category exists and is the row's amount when exactly one
exists. -/
theorem budget_comparison_complete (t : Trip) :
    ((TripViewSet.comparisonBudget t).map (fun e => e.category)) =
      BudgetCategory.choices ∧
    ∀ e ∈ TripViewSet.comparisonBudget t,
      e.actual = ((t.expenses.filter (fun x => x.category == e.category)).map
        (fun x => x.amount)).sum ∧
      e.difference = e.budget - e.actual ∧
      (e.budget = 0 → e.usage_percent = 0) ∧
      ((∀ b ∈ t.budgets, b.category ≠ e.category) → e.budget = 0) ∧
      (∀ b ∈ t.budgets, b.category = e.category →
        (∀ b2 ∈ t.budgets, b2.category = e.category → b2 = b) →
        e.budget = b.amount) := by
  constructor
  · rw [TripViewSet.comparisonBudget, List.map_map]
    show List.map (fun c => c) BudgetCategory.choices = BudgetCategory.choices
    exact List.map_id BudgetCategory.choices
  · intro e he
    obtain ⟨c, _, rfl⟩ := List.mem_map.mp he
    refine ⟨pyOrZero_aggSum _, rfl, ?_, ?_, ?_⟩
    · intro h0
      dsimp only at h0 ⊢
      split
      · next hpos => exact absurd h0 (by omega)
      · rfl
    · intro hnone
      dsimp only at hnone ⊢
      have hfil : t.budgets.filter (fun b => b.category == c) = [] := by
        rw [List.filter_eq_nil_iff]
        intro b hb
        simp only [beq_iff_eq]
        exact hnone b hb
      rw [hfil]
      rfl
    · intro b hb hcat huniq
      dsimp only at hcat huniq ⊢
      have hbf : b ∈ t.budgets.filter (fun x => x.category == c) :=
        List.mem_filter.mpr ⟨hb, by simp [hcat]⟩
      cases hfil : t.budgets.filter (fun x => x.category == c) with
      | nil => rw [hfil] at hbf; cases hbf
      | cons x xs =>
        have hx : x ∈ t.budgets.filter (fun y => y.category == c) := by
          rw [hfil]; exact List.mem_cons_self x xs
        obtain ⟨hxmem, hxcat⟩ := List.mem_filter.mp hx
        have hxc : x.category = c := by simpa using hxcat
        rw [huniq x hxmem hxc]
        rfl

/-- Witness for C3: evaluated on `exTripEmpty`, the transport entry is a
member and has `actual = 0` and `usage_percent = 0`. -/
theorem budget_comparison_complete_witness :
    exTransportEntry.usage_percent = 0 ∧
    exTransportEntry.actual =
      ((exTripEmpty.expenses.filter
        (fun x => x.category == exTransportEntry.category)).map
        (fun x => x.amount)).sum := by
  have h := (budget_comparison_complete exTripEmpty).2 exTransportEntry (by decide)
  exact ⟨h.2.2.1 rfl, h.1⟩

/-- C4: in every per-day schedule-comparison entry, `visited_as_planned`
(the intersection of the planned-name set with the logged-name set) and
`skipped` (planned minus logged) are disjoint, and their union is exactly
the planned-name set. -/
theorem schedule_comparison_partition (t : Trip) :
    ∀ e ∈ TripViewSet.comparisonSchedule t,
      e.visited_as_planned ∩ e.skipped = ∅ ∧
      e.visited_as_planned ∪ e.skipped = e.planned_places := by
  intro e he
  obtain ⟨dp, _, rfl⟩ := List.mem_map.mp he
  dsimp only
  constructor
  · ext x
    simp only [Finset.mem_inter, Finset.mem_sdiff, Finset.not_mem_empty,
      iff_false]
    tauto
  · ext x
    simp only [Finset.mem_union, Finset.mem_inter, Finset.mem_sdiff]
    tauto

/-- Witness for C4: evaluated on `exTrip2day`, the day-1 entry is a member,
its partition facts hold, and concretely the planned set `{Beach}` splits
into `visited_as_planned = {Beach}` and `skipped = ∅`. -/
theorem schedule_comparison_partition_witness :
    exSchedEntry1 ∈ TripViewSet.comparisonSchedule exTrip2day ∧
    (exSchedEntry1.visited_as_planned ∩ exSchedEntry1.skipped = ∅ ∧
      exSchedEntry1.visited_as_planned ∪ exSchedEntry1.skipped =
        exSchedEntry1.planned_places) :=
  ⟨by decide,
   schedule_comparison_partition exTrip2day exSchedEntry1 (by decide)⟩

/-- C5: a successfully created Trip has day plans numbered exactly `1..N`
(`N` the trip duration in days), day `n` dated `start_date + (n - 1)`;
and an update whose effective dates differ from the stored ones replaces
the whole day-plan list with a freshly generated one, renumbered
`1..duration_days` against the new range. -/
theorem day_plans_generation (p : TripCreatePayload) (t t0 : Trip)
    (u : TripUpdatePayload) :
    (TripCreateSerializer.create p = Except.ok t →
      t.day_plans.map (fun dp => dp.day_number) =
        (List.range t.duration_days.toNat).map (fun i => i + 1) ∧
      ∀ dp ∈ t.day_plans, dp.date = t.start_date + dp.day_number - 1) ∧
    ((t0.start_date ≠ (TripUpdateSerializer.applyFields t0 u).start_date ∨
      t0.end_date ≠ (TripUpdateSerializer.applyFields t0 u).end_date) →
      (TripUpdateSerializer.update t0 u).day_plans =
        TripUpdateSerializer.update_day_plans
          (TripUpdateSerializer.applyFields t0 u).start_date
          (TripUpdateSerializer.applyFields t0 u).end_date ∧
      (TripUpdateSerializer.update t0 u).day_plans.map (fun dp => dp.day_number) =
        (List.range (TripUpdateSerializer.update t0 u).duration_days.toNat).map
          (fun i => i + 1) ∧
      ∀ dp ∈ (TripUpdateSerializer.update t0 u).day_plans,
        dp.date = (TripUpdateSerializer.update t0 u).start_date +
          dp.day_number - 1) := by
  constructor
  · intro hok
    unfold TripCreateSerializer.create at hok
    split at hok
    · exact Except.noConfusion hok
    · split at hok
      · exact Except.noConfusion hok
      · split at hok
        · exact Except.noConfusion hok
        · split at hok
          · exact Except.noConfusion hok
          · injection hok with hok
            subst hok
            exact create_day_plans_spec p.start_date p.end_date
  · intro hchanged
    have hupd : TripUpdateSerializer.update t0 u =
        { TripUpdateSerializer.applyFields t0 u with
          day_plans := TripUpdateSerializer.update_day_plans
            (TripUpdateSerializer.applyFields t0 u).start_date
            (TripUpdateSerializer.applyFields t0 u).end_date } := by
      unfold TripUpdateSerializer.update
      rw [if_pos hchanged]
    rw [hupd]
    refine ⟨rfl, ?_, ?_⟩
    · rw [update_day_plans_eq_create]
      exact (create_day_plans_spec _ _).1
    · rw [update_day_plans_eq_create]
      exact (create_day_plans_spec _ _).2

/-- Witness for C5: creating a 3-day trip yields day numbers `[1, 2, 3]`,
and extending it to 5 days regenerates day numbers `[1, 2, 3, 4, 5]`. -/
theorem day_plans_generation_witness :
    TripCreateSerializer.create exCreatePayload = Except.ok exCreatedTrip ∧
    exCreatedTrip.day_plans.map (fun dp => dp.day_number) =
      (List.range exCreatedTrip.duration_days.toNat).map (fun i => i + 1) ∧
    (TripUpdateSerializer.update exCreatedTrip exExtendPayload).day_plans.map
        (fun dp => dp.day_number) =
      (List.range (TripUpdateSerializer.update exCreatedTrip
        exExtendPayload).duration_days.toNat).map (fun i => i + 1) := by
  have h := day_plans_generation exCreatePayload exCreatedTrip exCreatedTrip
    exExtendPayload
  have hok : TripCreateSerializer.create exCreatePayload =
      Except.ok exCreatedTrip := by rfl
  exact ⟨hok, (h.1 hok).1, (h.2 (by decide)).2.1⟩

/-- C6: for an Expense saved with `day_number` unset and `expense_date`
present, and a TripLog saved with `day_number` unset and `visit_date`
present, both saves set `day_number` to `(date - start).days + 1` when the
event date is on or after the trip start, and leave it unset otherwise:
the derivation rule is the same for both entity types. -/
theorem day_number_autofill (e : Expense) (l : TripLog) (ts d : ℤ)
    (he : e.day_number = none) (hed : e.expense_date = some d)
    (hl : l.day_number = none) (hld : l.visit_date = some d) :
    (ts ≤ d →
      (e.save ts).day_number = some ((d - ts).toNat + 1) ∧
      (l.save ts).day_number = some ((d - ts).toNat + 1)) ∧
    (d < ts →
      (e.save ts).day_number = none ∧
      (l.save ts).day_number = none) := by
  obtain ⟨cat, amt, desc, edate, dn⟩ := e
  obtain ⟨dst, pn, addr, vd, ldn, rat, vs⟩ := l
  dsimp only at he hed hl hld
  subst he hed hl hld
  constructor
  · intro hts
    have hpos : d - ts ≥ 0 := by omega
    constructor
    · show (if d - ts ≥ 0 then
          ({ category := cat, amount := amt, description := desc,
             expense_date := some d, day_number := some ((d - ts).toNat + 1) } :
            Expense)
        else _).day_number = _
      rw [if_pos hpos]
    · unfold TripLog.save
      dsimp only
      rw [if_pos hpos]
      cases dst with
      | none => rfl
      | some dest =>
        dsimp only
        split
        · rfl
        · rfl
  · intro hts
    have hneg : ¬ (d - ts ≥ 0) := by omega
    constructor
    · show (if d - ts ≥ 0 then _
        else ({ category := cat, amount := amt, description := desc,
                expense_date := some d, day_number := none } : Expense)).day_number = _
      rw [if_neg hneg]
    · unfold TripLog.save
      dsimp only
      rw [if_neg hneg]
      cases dst with
      | none => rfl
      | some dest =>
        dsimp only
        split
        · rfl
        · rfl

/-- Witness for C6: with trip start 0 and event date 2, both saves derive
day number 3. -/
theorem day_number_autofill_witness :
    (exExpenseNoDay.save 0).day_number = some 3 ∧
    (exLogNoDay.save 0).day_number = some 3 := by
  have h := (day_number_autofill exExpenseNoDay exLogNoDay 0 2 rfl rfl rfl rfl).1
    (by decide)
  exact ⟨h.1, h.2⟩

/-- Counterexample to C7: an update stretching a stored trip to a 31-day
span passes `TripUpdateSerializer.validate` and is applied, mutating the
store to a trip whose span exceeds 30 days — the update path has no 30-day
check. -/
theorem trip_update_span_unchecked :
    TripUpdateSerializer.save exTrip1day exExtend31 =
      Except.ok (TripUpdateSerializer.update exTrip1day exExtend31) ∧
    (TripUpdateSerializer.update exTrip1day exExtend31).duration_days = 31 ∧
    30 < (TripUpdateSerializer.update exTrip1day exExtend31).duration_days := by
  refine ⟨rfl, rfl, by decide⟩

/-- C7 as amended: Trip creation rejects `end_date < start_date` and
rejects spans exceeding 30 days, and a creation payload failing date
validation produces no trip; Trip update rejects `end_date < start_date`
but performs no 30-day span check — any payload with effective
`start <= end` is accepted and applied. -/
theorem trip_write_date_validation (s e : ℤ) (p : TripCreatePayload)
    (t : Trip) (u : TripUpdatePayload) :
    (e < s → TripCreateSerializer.validate s e =
      Except.error ("end_date", "종료일은 시작일 이후여야 합니다.")) ∧
    (s ≤ e → 30 < e - s + 1 → TripCreateSerializer.validate s e =
      Except.error ("end_date", "여행 기간은 최대 30일까지 설정할 수 있습니다.")) ∧
    (∀ err, TripCreateSerializer.validate p.start_date p.end_date =
        Except.error err →
      ∀ tr, TripCreateSerializer.create p ≠ Except.ok tr) ∧
    (u.end_date.getD t.end_date < u.start_date.getD t.start_date →
      TripUpdateSerializer.save t u =
        Except.error ("end_date", "종료일은 시작일 이후여야 합니다.")) ∧
    (u.start_date.getD t.start_date ≤ u.end_date.getD t.end_date →
      TripUpdateSerializer.save t u =
        Except.ok (TripUpdateSerializer.update t u)) := by
  refine ⟨?_, ?_, ?_, ?_, ?_⟩
  · intro h
    unfold TripCreateSerializer.validate
    rw [if_pos h]
  · intro h1 h2
    unfold TripCreateSerializer.validate
    rw [if_neg (by omega), if_pos (by omega)]
  · intro err herr tr hok
    unfold TripCreateSerializer.create at hok
    split at hok
    · exact Except.noConfusion hok
    · split at hok
      · exact Except.noConfusion hok
      · split at hok
        · exact Except.noConfusion hok
        · rw [herr] at hok
          exact Except.noConfusion hok
  · intro h
    unfold TripUpdateSerializer.save TripUpdateSerializer.validate
    dsimp only
    rw [if_pos h]
  · intro h
    unfold TripUpdateSerializer.save TripUpdateSerializer.validate
    dsimp only
    rw [if_neg (by omega)]

/-- Witness for the amended C7: a 41-day creation payload is rejected by
date validation and creates no trip, while an update putting the end
before the start is rejected. -/
theorem trip_write_date_validation_witness :
    TripCreateSerializer.validate 0 40 =
      Except.error ("end_date", "여행 기간은 최대 30일까지 설정할 수 있습니다.") ∧
    TripCreateSerializer.create exLongPayload ≠ Except.ok exTrip1day ∧
    TripUpdateSerializer.save exTrip1day exBackwardsUpdate =
      Except.error ("end_date", "종료일은 시작일 이후여야 합니다.") := by
  have h := trip_write_date_validation 0 40 exLongPayload exTrip1day
    exBackwardsUpdate
  exact ⟨h.2.1 (by decide) (by decide),
    h.2.2.1 ("end_date", "여행 기간은 최대 30일까지 설정할 수 있습니다.") (by rfl)
      exTrip1day,
    h.2.2.2.1 (by decide)⟩

/-- Counterexample to C8: creating a one-day trip with an inline
destination at day 5 succeeds, storing a destination whose day exceeds the
trip duration — the inline path checks only `day >= 1`. -/
theorem inline_destination_day_unchecked :
    TripCreateSerializer.create exInlineDayPayload =
      Except.ok exInlineDayTrip ∧
    exInlineDayTrip.destinations.map (fun d => d.day) = [5] ∧
    exInlineDayTrip.duration_days = 1 ∧
    ¬ ((5 : ℤ) ≤ exInlineDayTrip.duration_days) := by
  refine ⟨rfl, rfl, rfl, by decide⟩

/-- C8 as amended: the standalone add-destination endpoint does enforce the
bound — a stored destination returned by it satisfies
`1 ≤ day ≤ trip.duration_days`, and a payload whose (defaulted) day exceeds
the duration is rejected; but destinations created inline during Trip
creation are only guaranteed `day ≥ 1`, so the invariant
`day ≤ duration_days` holds only on the add-destination path. -/
theorem destination_day_validation (t : Trip) (p : DestinationPayload)
    (d : Destination) (q : TripCreatePayload) (tq : Trip) :
    (TripViewSet.add_destination t p = Except.ok d →
      1 ≤ d.day ∧ (d.day : ℤ) ≤ t.duration_days) ∧
    ((p.day.getD 1 : ℤ) > t.duration_days →
      ∀ d2, TripViewSet.add_destination t p ≠ Except.ok d2) ∧
    (TripCreateSerializer.create q = Except.ok tq →
      ∀ dest ∈ tq.destinations, 1 ≤ dest.day) := by
  have hadd : ∀ dd, TripViewSet.add_destination t p = Except.ok dd →
      (1 ≤ dd.day ∧ (dd.day : ℤ) ≤ t.duration_days) ∧
      dd = DestinationPayload.toRow p := by
    intro dd hok
    unfold TripViewSet.add_destination at hok
    split at hok
    · next dv hday =>
      split at hok
      · exact Except.noConfusion hok
      · next h1 =>
        split at hok
        · exact Except.noConfusion hok
        · next h2 =>
          injection hok with hok
          subst hok
          refine ⟨?_, rfl⟩
          unfold DestinationPayload.toRow
          rw [hday]
          simp only [Option.getD]
          omega
    · next hday =>
      split at hok
      · exact Except.noConfusion hok
      · next h2 =>
        injection hok with hok
        subst hok
        refine ⟨?_, rfl⟩
        unfold DestinationPayload.toRow
        rw [hday]
        simp only [Option.getD]
        omega
  refine ⟨fun hok => (hadd d hok).1, ?_, ?_⟩
  · intro hover d2 hok
    obtain ⟨⟨h1, hle⟩, hrow⟩ := hadd d2 hok
    subst hrow
    simp only [DestinationPayload.toRow] at hle
    omega
  · intro hok dest hdest
    unfold TripCreateSerializer.create at hok
    split at hok
    · exact Except.noConfusion hok
    · split at hok
      · exact Except.noConfusion hok
      · next hdays =>
        split at hok
        · exact Except.noConfusion hok
        · split at hok
          · exact Except.noConfusion hok
          · injection hok with hok
            subst hok
            have hall : (q.destinations.all fun x =>
                DestinationCreateSerializer.dayValid x.day) = true := by
              revert hdays
              cases q.destinations.all fun x =>
                  DestinationCreateSerializer.dayValid x.day <;> simp
            obtain ⟨pd, hpd, rfl⟩ := List.mem_map.mp hdest
            have hv := List.all_eq_true.mp hall pd hpd
            unfold DestinationCreateSerializer.dayValid at hv
            unfold DestinationPayload.toRow
            cases hday : pd.day with
            | some dv =>
              rw [hday] at hv
              simp only [Option.getD]
              exact of_decide_eq_true hv
            | none =>
              simp only [Option.getD]
              omega

/-- Witness for the amended C8: adding a day-2 destination to the 3-day
trip succeeds within bounds, and the inline destination of
`exInlineDayPayload` is only guaranteed to be at least day 1. -/
theorem destination_day_validation_witness :
    (1 ≤ exCafeRow.day ∧ (exCafeRow.day : ℤ) ≤ exCreatedTrip.duration_days) ∧
    1 ≤ exBeachDay5Row.day := by
  have h := destination_day_validation exCreatedTrip exCafePayload exCafeRow
    exInlineDayPayload exInlineDayTrip
  refine ⟨h.1 (by rfl), ?_⟩
  exact h.2.2 (by rfl) exBeachDay5Row (by decide)

/-- C9: expense creation rejects a non-positive amount with a validation
error, and (once the amount passes) rejects an `expense_date` outside
`[trip.start_date, trip.end_date]` with an error attributed to the
`expense_date` field; in both cases no expense row is stored. -/
theorem expense_create_validation (t : Trip) (p : ExpensePayload) :
    (p.amount ≤ 0 → TripViewSet.add_expense t p =
      Except.error ("amount", "금액은 0보다 커야 합니다.")) ∧
    (0 < p.amount →
      (p.expense_date < t.start_date ∨ p.expense_date > t.end_date) →
      TripViewSet.add_expense t p =
        Except.error ("expense_date", "지출 날짜는 여행 기간 내여야 합니다.")) := by
  constructor
  · intro h
    unfold TripViewSet.add_expense ExpenseCreateSerializer.validate_amount
    rw [if_pos h]
  · intro hamt hdate
    unfold TripViewSet.add_expense ExpenseCreateSerializer.validate_amount
      ExpenseCreateSerializer.validate
    rw [if_neg (by omega)]
    dsimp only
    rw [if_pos hdate]

/-- Witness for C9: on the one-day trip, a zero-amount expense is rejected
on `amount` and a day-3 expense is rejected on `expense_date`. -/
theorem expense_create_validation_witness :
    TripViewSet.add_expense exTrip1day exZeroExpense =
      Except.error ("amount", "금액은 0보다 커야 합니다.") ∧
    TripViewSet.add_expense exTrip1day exLateExpense =
      Except.error ("expense_date", "지출 날짜는 여행 기간 내여야 합니다.") :=
  ⟨(expense_create_validation exTrip1day exZeroExpense).1 (by decide),
   (expense_create_validation exTrip1day exLateExpense).2 (by decide)
     (by decide)⟩

/-- C10: an update whose effective `start_date` and `end_date` both equal
the stored ones leaves the day-plan list — and hence every day plan's
memo — untouched; conversely, any change to the day-plan list can only
come from a changed date, so the delete-and-recreate regeneration runs
only when `start_date` or `end_date` actually changed. -/
theorem day_plans_frame (t : Trip) (u : TripUpdatePayload) :
    ((TripUpdateSerializer.applyFields t u).start_date = t.start_date ∧
      (TripUpdateSerializer.applyFields t u).end_date = t.end_date →
      (TripUpdateSerializer.update t u).day_plans = t.day_plans) ∧
    ((TripUpdateSerializer.update t u).day_plans ≠ t.day_plans →
      (TripUpdateSerializer.applyFields t u).start_date ≠ t.start_date ∨
      (TripUpdateSerializer.applyFields t u).end_date ≠ t.end_date) := by
  have hframe : (TripUpdateSerializer.applyFields t u).start_date = t.start_date ∧
      (TripUpdateSerializer.applyFields t u).end_date = t.end_date →
      (TripUpdateSerializer.update t u).day_plans = t.day_plans := by
    intro h
    unfold TripUpdateSerializer.update
    rw [if_neg]
    · rfl
    · push_neg
      exact ⟨h.1.symm, h.2.symm⟩
  refine ⟨hframe, ?_⟩
  intro hne
  by_contra hc
  push_neg at hc
  exact hne (hframe hc)

/-- Witness for C10: renaming the 3-day trip keeps its day plans intact. -/
theorem day_plans_frame_witness :
    (TripUpdateSerializer.update exCreatedTrip exTitleOnly).day_plans =
      exCreatedTrip.day_plans :=
  (day_plans_frame exCreatedTrip exTitleOnly).1 (by decide)

/-- Concrete aggregation scenario: budget 100000 with expenses 30000 and
20000 gives spent 50000, remaining 50000, usage 50.0 percent. -/
theorem food_budget_scenario :
    exFoodBudget.spent_amount exFoodTrip = 50000 ∧
    exFoodBudget.remaining_amount exFoodTrip = 50000 ∧
    exFoodBudget.usage_percent exFoodTrip = 50 := by
  refine ⟨by decide, by decide, ?_⟩
  unfold Budget.usage_percent
  rw [if_neg (by decide)]
  have h : exFoodBudget.spent_amount exFoodTrip = 50000 := by decide
  rw [h]
  have hb : exFoodBudget.amount = 100000 := rfl
  rw [hb]
  have hq : ((50000 : ℤ) : ℚ) / ((100000 : ℤ) : ℚ) * 100 = 50 := by norm_num
  rw [hq]
  norm_num [round1, qfloor, Int.fdiv]
